import Mathlib

/-!
# Release Manager orchestration pipeline — verification development

Shallow embedding of the orchestration core of the release-manager assistant
backend (`src/backend/services/orchestrator` and `src/backend/common`), together
with proofs about its behaviour.

Conventions:
* Python dataclasses / pydantic models become Lean structures.
* Fallible Python code (raising exceptions) returns `Except PyErr _`.
* Language-model calls are opaque capabilities: an `Env` record supplies, for
  each agent and input message list, the text the upstream platform would
  return, and the parsed shape of the planner's reply.
* The per-session `AgentOrchestrator` mutable state (`chat_history`,
  `agent_runtime_config_map`) is threaded explicitly.
-/

namespace ReleaseManager

/-! ## Python-level error values -/

/-- Exception values raised by the embedded code (`ValueError`, `TypeError`,
`AttributeError`, `RuntimeError`). -/
inductive PyErr
  | valueError (msg : String)
  | typeError (msg : String)
  | attributeError
  | runtimeError (msg : String)
  deriving DecidableEq, Repr

/-! ## Data model: agents, chat entries, contracts -/

/-- `models/agents.py`: the `Agent` enum. -/
inductive Agent
  | PLANNER_AGENT
  | JIRA_AGENT
  | DEVOPS_AGENT
  | AZURE_DEVOPS_AGENT
  | VISUALIZATION_AGENT
  | FALLBACK_AGENT
  deriving DecidableEq, Repr

/-- `.value` of an `Agent` enum member. -/
def Agent.value : Agent → String
  | .PLANNER_AGENT => "PLANNER_AGENT"
  | .JIRA_AGENT => "JIRA_AGENT"
  | .DEVOPS_AGENT => "DEVOPS_AGENT"
  | .AZURE_DEVOPS_AGENT => "AZURE_DEVOPS_AGENT"
  | .VISUALIZATION_AGENT => "VISUALIZATION_AGENT"
  | .FALLBACK_AGENT => "FALLBACK_AGENT"

/-- `Agent(agent_name)` enum lookup; `none` models the `ValueError` raised for
a string that is not an enum value. -/
def Agent.fromString (s : String) : Option Agent :=
  if s = "PLANNER_AGENT" then some .PLANNER_AGENT
  else if s = "JIRA_AGENT" then some .JIRA_AGENT
  else if s = "DEVOPS_AGENT" then some .DEVOPS_AGENT
  else if s = "AZURE_DEVOPS_AGENT" then some .AZURE_DEVOPS_AGENT
  else if s = "VISUALIZATION_AGENT" then some .VISUALIZATION_AGENT
  else if s = "FALLBACK_AGENT" then some .FALLBACK_AGENT
  else none

/-- An element of `AgentOrchestrator.chat_history`. The list normally holds
`ChatMessage(role=Role.USER, text=...)` objects, but
`start_agent_workflow` also appends a bare `str` (the accumulated
`intermediate_context`), modelled by the `raw` constructor. -/
inductive ChatEntry
  | user (text : String)
  | raw (text : String)
  deriving DecidableEq, Repr

/-- The text carried by a chat-history element. -/
def ChatEntry.text : ChatEntry → String
  | .user t => t
  | .raw t => t

/-- `common/contracts/orchestrator/request.py`: `OrchestratorRequest`. -/
structure Request where
  session_id : String
  dialog_id : String
  user_id : String := "anonymous"
  message : String
  authorization : Option String := none
  locale : Option String := none
  deriving DecidableEq, Repr

/-- Modelled from the spec: `Answer` (`common.contracts.common.answer` is not
among the reviewed sources; §6 gives the wire shape
`{answer_string, is_final, data_points, speaker_locale}`, with
`answer_string` empty by default on fatal paths). -/
structure Answer where
  answer_string : String := ""
  is_final : Bool := false
  data_points : List String := []
  speaker_locale : Option String := none
  deriving DecidableEq, Repr

/-- Modelled from the spec: `Error` (`common.contracts.common.error` is not
among the reviewed sources; §6 gives `{error_str, retry}`). -/
structure Error where
  error_str : String
  retry : Bool
  deriving DecidableEq, Repr

/-- Modelled from the spec: `OrchestratorResponse`
(`common.contracts.orchestrator.response` is not among the reviewed sources;
§6 gives `{session_id, dialog_id, user_id, answer, error?}`; the id fields are
optional because `app.py` builds `OrchestratorResponse(answer=..., error=...)`
without them on the request-decode failure path). -/
structure Response where
  session_id : Option String := none
  dialog_id : Option String := none
  user_id : Option String := none
  answer : Answer
  error : Option Error := none
  deriving DecidableEq, Repr

/-! ## Planner plan parsing -/

/-- The parsed shape of the planner agent's reply text.  `malformed` models a
payload `json.loads` rejects; `fields` carries `plan_id`, `agents` and
`justification` as extracted by `__parse_planner_agent_response`
(`agents = none` models JSON `null`; an absent `"agents"` key is already
folded to `some []` by `response_dict.get("agents", [])`). -/
inductive PlannerPayload
  | malformed
  | fields (plan_id : Option String) (agents : Option (List String)) (justification : String)

/-- The dict returned by `__parse_planner_agent_response`. -/
structure Plan where
  plan_id : Option String
  agents : Option (List String)
  justification : String
  deriving DecidableEq, Repr

/-- Python `str.strip()`: drop whitespace from both ends. -/
def str_strip (s : String) : String :=
  String.mk (((s.data.dropWhile Char.isWhitespace).reverse.dropWhile
    Char.isWhitespace).reverse)

/-- `AgentOrchestrator.__parse_planner_agent_response`: `json.loads` failure
raises `ValueError("Invalid JSON response from planner agent.")`; otherwise the
three fields are extracted (`justification` is `.strip()`-ped). -/
def parse_planner_agent_response : PlannerPayload → Except PyErr Plan
  | .malformed => .error (.valueError "Invalid JSON response from planner agent.")
  | .fields plan_id agents justification => .ok ⟨plan_id, agents, str_strip justification⟩

/-! ## Orchestrator state and upstream capability environment -/

/-- The mutable per-session state of `AgentOrchestrator` that the claims are
about: the chat history and the key set of `agent_runtime_config_map`. -/
structure OrchestratorState where
  chat_history : List ChatEntry := []
  bindings : List Agent := []
  deriving DecidableEq, Repr

/-- Opaque upstream capabilities (spec §1: "run agent with message history …
→ text response").  `planner` gives the parsed shape of the planner's reply
for a given input history; `oracle` gives the reply text of any agent for a
given input; `vizUrls` is the list of SAS urls `__generate_visualization_data`
would produce (its internal failures are absorbed to a list). -/
structure Env where
  planner : List ChatEntry → PlannerPayload
  oracle : Agent → List ChatEntry → String
  vizUrls : List String

/-- One successful `__invoke_agent` call: which agent ran and with which
`messages` argument. -/
structure InvokeEvent where
  agent : Agent
  input : List ChatEntry
  deriving DecidableEq, Repr

/-- `agent_response.text.replace("\n", "").replace("\r", "")`: replacing a
single-character pattern by the empty string deletes every occurrence of that
character. -/
def clean_text (s : String) : String :=
  String.mk ((s.data.filter (fun c => c ≠ '\n')).filter (fun c => c ≠ '\r'))

/-- Whether a plan-supplied agent name resolves to an entry of
`agent_runtime_config_map`: `Agent(agent_name)` must succeed and the member
must be a key of the map. -/
def agent_bound (st : OrchestratorState) (name : String) : Bool :=
  match Agent.fromString name with
  | some a => a ∈ st.bindings
  | none => false

/-- The `for agent_name in plan["agents"]` loop of `start_agent_workflow`
(lines 346–371).  Arguments: remaining names, accumulated
`intermediate_context`, current `visualization_image_sas_urls`, reversed
invocation trace so far.  Returns the trace of performed invocations and
either the raised exception or the final `(intermediate_context, urls)`.
Note the loop passes the *unchanged* `st.chat_history` to every agent and the
`VISUALIZATION_AGENT` branch *replaces* the url list. -/
def run_plan_agents (env : Env) (st : OrchestratorState) :
    List String → String → List String → List InvokeEvent →
    List InvokeEvent × Except PyErr (String × List String)
  | [], ic, viz, tr => (tr.reverse, .ok (ic, viz))
  | name :: rest, ic, viz, tr =>
    match Agent.fromString name with
    | none => (tr.reverse, .error (.valueError (name ++ " is not a valid Agent")))
    | some a =>
      if a ∈ st.bindings then
        let ev : InvokeEvent := ⟨a, st.chat_history⟩
        if a = .VISUALIZATION_AGENT then
          run_plan_agents env st rest ic env.vizUrls (ev :: tr)
        else
          run_plan_agents env st rest
            (ic ++ clean_text (env.oracle a st.chat_history) ++ "\n\n") viz (ev :: tr)
      else (tr.reverse, .error (.valueError ("Agent " ++ name ++ " not found in configuration.")))

/-- The `Response` built on the fallback branch (lines 328–338). -/
def fallback_response (request : Request) (text : String) : Response :=
  { session_id := some request.session_id
    dialog_id := some request.dialog_id
    user_id := some request.user_id
    answer := { answer_string := text, is_final := true, data_points := [],
                speaker_locale := request.locale } }

/-- The `Response` built after plan execution (lines 376–386). -/
def exec_response (request : Request) (ic : String) (viz : List String) : Response :=
  { session_id := some request.session_id
    dialog_id := some request.dialog_id
    user_id := some request.user_id
    answer := { answer_string := ic, is_final := true, data_points := viz,
                speaker_locale := request.locale } }

/-- The body of `start_agent_workflow` after the user turn has been appended
(`st1.chat_history` already ends with the new user message).  Returns the
invocation trace and either the raised exception or
`(intermediate_context to append to the history if any, response)`.
Mirrors lines 316–386: the planner runs on the full chat history; its reply is
parsed; `if not plan or Agent.FALLBACK_AGENT.value in plan.get("agents")`
(`not plan` is always false, the parse result is a three-key dict, and
membership in a JSON-null agent list raises `TypeError`) selects the fallback
branch, which invokes the fallback agent on the latest user turn only and
appends nothing; otherwise the plan loop runs and the accumulated
`intermediate_context` is appended to the history. -/
def after_planner (env : Env) (st1 : OrchestratorState) (request : Request) :
    List InvokeEvent × Except PyErr (Option String × Response) :=
  match parse_planner_agent_response (env.planner st1.chat_history) with
  | .error e => ([], .error e)
  | .ok plan =>
    match plan.agents with
    | none => ([], .error (.typeError "argument of type NoneType is not iterable"))
    | some ags =>
      if Agent.FALLBACK_AGENT.value ∈ ags then
        if Agent.FALLBACK_AGENT ∈ st1.bindings then
          let fbInput : List ChatEntry := [ChatEntry.user request.message]
          ([⟨.FALLBACK_AGENT, fbInput⟩],
           .ok (none, fallback_response request (env.oracle .FALLBACK_AGENT fbInput)))
        else ([], .error .attributeError)
      else
        match run_plan_agents env st1 ags "" [] [] with
        | (tr, .error e) => (tr, .error e)
        | (tr, .ok (ic, viz)) => (tr, .ok (some ic, exec_response request ic viz))

/-- The planner phase itself: `__invoke_agent(PLANNER_AGENT, chat_history)`
(an `AttributeError` when the planner has no binding), then everything in
`after_planner`. -/
def workflow_core (env : Env) (st1 : OrchestratorState) (request : Request) :
    List InvokeEvent × Except PyErr (Option String × Response) :=
  if Agent.PLANNER_AGENT ∈ st1.bindings then
    let r := after_planner env st1 request
    (⟨.PLANNER_AGENT, st1.chat_history⟩ :: r.1, r.2)
  else ([], .error .attributeError)

/-- Result of one `start_agent_workflow` call: the new session state, the
trace of agent invocations, and the returned response or raised exception. -/
structure WorkflowResult where
  state : OrchestratorState
  trace : List InvokeEvent
  result : Except PyErr Response
  deriving Repr

/-- `AgentOrchestrator.start_agent_workflow` (lines 290–395).  The user turn
is appended to `chat_history` first (line 314); on the plan-execution path the
accumulated `intermediate_context` is appended after the loop (line 374);
every exception propagates to the caller. -/
def start_agent_workflow (env : Env) (st : OrchestratorState) (request : Request) :
    WorkflowResult :=
  match workflow_core env
      { st with chat_history := st.chat_history ++ [ChatEntry.user request.message] } request with
  | (tr, .ok (some ic, resp)) =>
      ⟨{ st with chat_history :=
          st.chat_history ++ [ChatEntry.user request.message] ++ [ChatEntry.raw ic] },
       tr, .ok resp⟩
  | (tr, .ok (none, resp)) =>
      ⟨{ st with chat_history := st.chat_history ++ [ChatEntry.user request.message] },
       tr, .ok resp⟩
  | (tr, .error e) =>
      ⟨{ st with chat_history := st.chat_history ++ [ChatEntry.user request.message] },
       tr, .error e⟩

/-- The generic error response built by the top-level handler in
`app.py run_agent_orchestration` (lines 154–164). -/
def generic_error_response (request : Request) : Response :=
  { session_id := some request.session_id
    dialog_id := some request.dialog_id
    user_id := some request.user_id
    answer := { is_final := true }
    error := some { error_str := "An error occurred. Please retry..", retry := false } }

/-- `app.py run_agent_orchestration` for an already-cached session
orchestrator `st` (session lookup/creation is modelled separately):
a request payload that fails pydantic validation (`none`) yields the
parse-failure response; otherwise the workflow runs and any exception is
converted into the single generic error response.  Returns the state left in
the cached orchestrator, the invocation trace and the one final response
published on the message bus. -/
def run_agent_orchestration (env : Env) (st : OrchestratorState)
    (request_payload : Option Request) :
    OrchestratorState × List InvokeEvent × Response :=
  match request_payload with
  | none =>
      (st, [],
       { answer := { is_final := true },
         error := some { error_str := "Failed to parse request data", retry := false } })
  | some request =>
      match start_agent_workflow env st request with
      | ⟨st', tr, .ok resp⟩ => (st', tr, resp)
      | ⟨st', tr, .error _⟩ => (st', tr, generic_error_response request)

/-! ## `ReleaseManagerAgentFactory.create_agent` and `AgentBase` (claim C6) -/

/-- The two agent-configuration kinds of
`common/contracts/configuration/agent_config.py`. -/
inductive AgentConfigKind
  | azureAI
  | azureOpenAIResponses
  deriving DecidableEq, Repr

/-- The Python objects `create_agent` compares with `is`: a configuration
*instance* of one of the two kinds, or the *class object* itself
(`AzureAIAgentConfig` / `AzureOpenAIResponsesAgentConfig`). -/
inductive PyObj
  | configInstance (kind : AgentConfigKind)
  | configClass (kind : AgentConfigKind)
  deriving DecidableEq, Repr

/-- CPython `is`: object identity.  An instance and a class object are
distinct objects, and the two class objects are distinct. -/
def pyIs (a b : PyObj) : Bool := a == b

/-- The upstream client objects the factory may hold
(`AzureAIAgentClient` / `AzureOpenAIResponsesClient` instances). -/
inductive ClientObj
  | foundryClient
  | responsesClient
  deriving DecidableEq, Repr

/-- The factory's dependency state: its `_initialized` flag, its two client
slots (`none` means the client was not configured, Python `None`; `some ()`
means the well-typed client instance is present) and the keys of its
`_agent_creators` dict. -/
structure ReleaseManagerAgentFactory where
  _initialized : Bool := false
  foundry_client : Option Unit := none
  azure_openai_responses_client : Option Unit := none
  _agent_creators : List Agent := []
  deriving DecidableEq, Repr

/-- The object held in `self.azure_openai_responses_client`: an
`AzureOpenAIResponsesClient` instance, or `None`. -/
def responses_client_obj (f : ReleaseManagerAgentFactory) : Option ClientObj :=
  f.azure_openai_responses_client.map (fun _ => ClientObj.responsesClient)

/-- `devops_settings` kwargs for the Azure DevOps creator. -/
structure DevOpsSettings where
  use_mcp_server : Bool
  mcp_plugin_factory : Option Unit
  deriving DecidableEq, Repr

/-- `AgentCreationContext`: the kwargs `create_agent` forwards to the
creation routines. -/
structure AgentCreationContext where
  jira_settings : Option Unit := none
  devops_settings : Option DevOpsSettings := none
  deriving DecidableEq, Repr

/-- `AgentBase.initialize` (agent_base.py lines 53–90) for a freshly
constructed, non-singleton agent instance (`_is_singleton()` is `False` for
every orchestrator agent class, so `_initialized` is reset and the fast path
never fires): the `isinstance` checks of lines 82–87 — a class object is an
instance of neither kind, a `None` or mismatched client fails the
corresponding check. -/
def initialize_agent_base (client : Option ClientObj) (configuration : PyObj) :
    Except PyErr Unit :=
  match configuration with
  | .configClass _ => .error (.valueError "Unsupported agent configuration type.")
  | .configInstance .azureOpenAIResponses =>
      if client = some ClientObj.responsesClient then .ok ()
      else .error (.valueError
        "AzureOpenAIResponsesClient is required for AzureOpenAIResponsesAgentConfig.")
  | .configInstance .azureAI =>
      if client = some ClientObj.foundryClient then .ok ()
      else .error (.valueError "AzureAIAgentClient is required for AzureAIAgentConfig.")

/-- The attribute names `_setup_agent_creators` (agent_factory.py lines
56–64) looks up on the `Agent` enum while evaluating its dict literal, in
source order. -/
def creator_registry_names : List String :=
  ["FINAL_ANSWER_GENERATOR_AGENT", "PLANNER_AGENT", "JIRA_AGENT", "AZURE_DEVOPS_AGENT",
   "FALLBACK_AGENT"]

/-- `_setup_agent_creators`: evaluating the `_agent_creators` dict literal
resolves each `Agent.X` attribute; a name the enum does not define raises
`AttributeError` before the assignment to `self._agent_creators` happens.
`models/agents.py` defines no `FINAL_ANSWER_GENERATOR_AGENT` member, so this
always raises. -/
def _setup_agent_creators : Except PyErr (List Agent) :=
  match creator_registry_names.mapM Agent.fromString with
  | some keys => .ok keys
  | none => .error .attributeError

/-- The `_agent_creators` dict of the one reachable
`ReleaseManagerAgentFactory` instance: `__new__` stores the instance in
`cls._instance`, `__init__` sets `_agent_creators = {}` and then calls
`_setup_agent_creators`, which raises — so the stored instance keeps the
empty dict from `__init__`. -/
def broken_factory_registry : List Agent :=
  match _setup_agent_creators with
  | .ok keys => keys
  | .error _ => []

/-- `AgentBase.get_instance` is declared `(cls, logger)` (agent_base.py line
39), but the planner/jira/devops creators call it as
`get_instance(self.logger, self.tracer_provider)` — three positional
arguments including `cls` — so CPython rejects the call before the body
runs. -/
def get_instance_extra_positional : Except PyErr Unit :=
  .error (.typeError "get_instance() takes 2 positional arguments but 3 were given")

/-- The fallback creator calls
`get_instance(logger=..., tracer_provider=...)`; `tracer_provider` is not a
parameter of `AgentBase.get_instance`, so CPython rejects the call before the
body runs. -/
def get_instance_unexpected_keyword : Except PyErr Unit :=
  .error (.typeError "get_instance() got an unexpected keyword argument tracer_provider")

/-- `_create_planner_agent` (agent_factory.py lines 161–171):
`PlannerAgent.get_instance(self.logger, self.tracer_provider)` raises
`TypeError`; the subsequent `initialize` call (with the factory's
`azure_openai_responses_client`) is unreachable. -/
def _create_planner_agent (f : ReleaseManagerAgentFactory) (configuration : PyObj) :
    Except PyErr Unit :=
  match get_instance_extra_positional with
  | .error e => .error e
  | .ok _ => initialize_agent_base (responses_client_obj f) configuration

/-- `_create_jira_agent` (lines 173–191): the `jira_settings` check runs
first; then `JiraAgent.get_instance(self.logger, self.tracer_provider)`
raises `TypeError` and the `initialize` call is unreachable. -/
def _create_jira_agent (f : ReleaseManagerAgentFactory) (configuration : PyObj)
    (context : AgentCreationContext) : Except PyErr Unit :=
  match context.jira_settings with
  | none => .error (.valueError "jira_settings is required for JIRA agent")
  | some _ =>
      match get_instance_extra_positional with
      | .error e => .error e
      | .ok _ => initialize_agent_base (responses_client_obj f) configuration

/-- `_create_azure_devops_agent` (lines 193–219): the `devops_settings`
checks run first; then
`AzureDevOpsAgent.get_instance(self.logger, self.tracer_provider)` raises
`TypeError` and the `initialize` call is unreachable. -/
def _create_azure_devops_agent (f : ReleaseManagerAgentFactory) (configuration : PyObj)
    (context : AgentCreationContext) : Except PyErr Unit :=
  match context.devops_settings with
  | none => .error (.valueError "devops_settings is required for Azure DevOps agent")
  | some ds =>
      if !ds.use_mcp_server && ds.mcp_plugin_factory = none then
        .error (.valueError
          "Either use_mcp_server or mcp_plugin_factory must be set for Azure DevOps agent")
      else
        match get_instance_extra_positional with
        | .error e => .error e
        | .ok _ => initialize_agent_base (responses_client_obj f) configuration

/-- `_create_fallback_agent` (lines 221–228):
`FallbackAgent.get_instance(logger=..., tracer_provider=...)` raises
`TypeError`; the `initialize` call is unreachable. -/
def _create_fallback_agent (f : ReleaseManagerAgentFactory) (configuration : PyObj) :
    Except PyErr Unit :=
  match get_instance_unexpected_keyword with
  | .error e => .error e
  | .ok _ => initialize_agent_base (responses_client_obj f) configuration

/-- `ReleaseManagerAgentFactory.create_agent` (agent_factory.py lines
101–147).  The registry test is against the instance's `_agent_creators`
dict.  The guards of lines 136–139 compare the configuration *instance* to a
*class object* with `is` (`context.configuration is AzureAIAgentConfig`), so
they are evaluated faithfully via `pyIs` — identity between an instance and a
class object, which never holds.  Creation-routine failures are logged and
re-raised (lines 142–147). -/
def create_agent (f : ReleaseManagerAgentFactory) (agent_type : Agent)
    (configuration : PyObj) (context : AgentCreationContext) : Except PyErr Unit :=
  if !f._initialized then
    .error (.runtimeError "Factory not initialized. Call initialize() first.")
  else if agent_type ∉ f._agent_creators then
    .error (.valueError ("Unsupported agent type: " ++ agent_type.value))
  else if pyIs configuration (PyObj.configClass .azureAI) && f.foundry_client = none then
    .error (.runtimeError ("Foundry client required for " ++ agent_type.value ++ " but not configured"))
  else if pyIs configuration (PyObj.configClass .azureOpenAIResponses)
      && f.azure_openai_responses_client = none then
    .error (.runtimeError ("Azure OpenAI Responses client required for " ++ agent_type.value ++ " but not configured"))
  else
    match agent_type with
    | .PLANNER_AGENT => _create_planner_agent f configuration
    | .JIRA_AGENT => _create_jira_agent f configuration context
    | .AZURE_DEVOPS_AGENT => _create_azure_devops_agent f configuration context
    | .FALLBACK_AGENT => _create_fallback_agent f configuration
    | _ => .error (.valueError ("Unsupported agent type: " ++ agent_type.value))

/-! ## `AzDevOpsPluginFactory` tool bridge (claims C7 and C9) -/

/-- Python `pat in name`: contiguous-substring containment on strings. -/
def char_sublist : List Char → List Char → Bool
  | pat, [] => pat.isEmpty
  | pat, c :: rest => pat.isPrefixOf (c :: rest) || char_sublist pat rest

/-- `pat in name` for strings. -/
def substr_occurs (pat s : String) : Bool :=
  char_sublist pat.toList s.toList

/-- Python `str.lower()` (per-character lowercasing). -/
def str_lower (s : String) : String :=
  String.mk (s.data.map Char.toLower)

/-- `models/devops_mcp_settings.py` fields used by the plugin factory. -/
structure DevOpsMcpSettings where
  azure_org_name : String
  mcp_server_command : String
  mcp_server_args : List String
  mcp_timeout : Option Int := none
  auto_start_server : Bool := true
  max_retries : Option Int := none
  retry_delay : Option Int := none
  essential_tool_categories : List (String × List String) := []
  deriving DecidableEq, Repr

/-- `AzDevOpsPluginFactory.__validate_settings` (az_devops_plugin.py lines
138–161): required fields must be truthy, string fields non-blank, numeric
settings in range.  Raises `AzDevOpsPluginInitializationError` (modelled as
`valueError`). -/
def __validate_settings (settings : DevOpsMcpSettings) : Except PyErr Unit :=
  if settings.azure_org_name = "" || settings.mcp_server_command = ""
      || settings.mcp_server_args = [] then
    .error (.valueError "Missing required settings")
  else if str_strip settings.azure_org_name = "" then
    .error (.valueError "Organization name cannot be empty")
  else if str_strip settings.mcp_server_command = "" then
    .error (.valueError "MCP server command cannot be empty")
  else if settings.mcp_timeout.any (· ≤ 0) then
    .error (.valueError "Invalid timeout value")
  else if settings.max_retries.any (· < 0) then
    .error (.valueError "Invalid max_retries value")
  else if settings.retry_delay.any (· < 0) then
    .error (.valueError "Invalid retry_delay value")
  else .ok ()

/-- Outcome of the MCP connect/load handshake inside `__discover_tools`:
an exception, a `None` function list, or the discovered tool names. -/
inductive DiscoveryOutcome
  | failure
  | noneFunctions
  | tools (names : List String)

/-- `AzDevOpsPluginFactory.__discover_tools` (lines 240–259): a discovery
exception is logged and absorbed to `[]`; a `None` function list becomes
`[]`. -/
def __discover_tools : DiscoveryOutcome → List String
  | .failure => []
  | .noneFunctions => []
  | .tools names => names

/-- `AzDevOpsPluginFactory.__validate_tool_categories` (lines 262–290):
no validation when no categories are configured or no tools were discovered;
otherwise a category is missing unless some *lowercased* tool name contains
every one of the category's patterns (the patterns themselves are *not*
lowercased). -/
def __validate_tool_categories (functions : List String)
    (essential_categories : List (String × List String)) : List String :=
  if essential_categories.isEmpty then []
  else if functions.isEmpty then []
  else
    let names := functions.map str_lower
    (essential_categories.filter
      (fun cp => !names.any (fun name => cp.2.all (fun pat => substr_occurs pat name)))).map
      Prod.fst

/-- `AzureDevOpsPluginStatus` (lines 39–44). -/
structure AzureDevOpsPluginStatus where
  tools_available : Nat
  missing_categories : List String
  warnings : List String
  deriving DecidableEq, Repr

/-- `AzDevOpsPluginFactory.create_plugin` (lines 65–126): validate settings,
create the `MCPStdioTool` handle (its constructor does not talk to the
subprocess and is assumed to succeed), discover tools, validate categories,
and assemble the health report; missing categories and an empty catalog are
warnings, never errors. -/
def create_plugin (settings : DevOpsMcpSettings) (discovery : DiscoveryOutcome) :
    Except PyErr AzureDevOpsPluginStatus :=
  match __validate_settings settings with
  | .error e => .error e
  | .ok _ =>
    let functions := __discover_tools discovery
    let missing_categories :=
      __validate_tool_categories functions settings.essential_tool_categories
    let warnings :=
      (if missing_categories.isEmpty then []
       else ["Missing tool categories: " ++ toString missing_categories]) ++
      (if functions.isEmpty then
        ["No tools discovered during initialization - they may load on first use"]
       else [])
    .ok { tools_available := functions.length
          missing_categories := missing_categories
          warnings := warnings }

/-- The claim's notion of category presence (spec §4.3): some discovered tool
name contains *all* patterns for the category as case-insensitive substrings.
Stated from the spec's words, for comparison with
`__validate_tool_categories`. -/
def spec_category_present (patterns : List String) (tool_names : List String) : Bool :=
  tool_names.any (fun name =>
    patterns.all (fun pat => substr_occurs (str_lower pat) (str_lower name)))

/-! ## `initialize_agent_workflow` session setup (claim C8) -/

/-- The five agents whose `agent_runtime_config_map` assignments appear at
lines 181–211 of `initialize_agent_workflow`, in source order.  (Those
assignments are unreachable — see `initialize_agent_workflow` below — so this
list serves as the *hypothetical* populated binding set that the workflow
claims take as an explicit session-state hypothesis.) -/
def init_agents : List Agent :=
  [Agent.PLANNER_AGENT, Agent.JIRA_AGENT, Agent.AZURE_DEVOPS_AGENT,
   Agent.VISUALIZATION_AGENT, Agent.FALLBACK_AGENT]

/-- Session-setup state: the keys of `agent_runtime_config_map`, how many
Foundry session threads were created on behalf of this orchestrator, a
counter supplying fresh thread ids, and whether
`ReleaseManagerAgentFactory._instance` already holds the (broken) singleton
(`__new__` stores it even though `__init__` then raises). -/
structure OrchInitState where
  agent_runtime_config_map : List Agent := []
  threads_created : Nat := 0
  next_thread_id : Nat := 0
  factory_instance_stored : Bool := false
  deriving DecidableEq, Repr

/-- `AgentOrchestrator.initialize_agent_workflow` (lines 156–211), faithful
to the deterministic failures inside it.  In source order: lines 161–163
create a *new* Foundry session thread (this external side effect happens on
every call); line 174 `ReleaseManagerAgentFactory.get_instance()` — on the
first call this constructs the singleton, whose `__init__` raises
`AttributeError` from `_setup_agent_creators` (no
`Agent.FINAL_ANSWER_GENERATOR_AGENT` member) after `__new__` has stored the
instance; on later calls the stored broken instance is returned and line 175
`factory.initialize(logger=..., foundry_client=...,
azure_openai_responses_client=...)` raises `TypeError`, because
`initialize(self, logger, tracer_provider, ...)` requires `tracer_provider`.
Either way the call raises before any of the binding assignments at lines
181–211, so `agent_runtime_config_map` is never touched.  There is also no
already-initialized guard anywhere in the method. -/
def initialize_agent_workflow (st : OrchInitState) : OrchInitState × Except PyErr Unit :=
  let st1 : OrchInitState :=
    { st with threads_created := st.threads_created + 1,
              next_thread_id := st.next_thread_id + 1 }
  if !st.factory_instance_stored then
    ({ st1 with factory_instance_stored := true },
     match _setup_agent_creators with
     | .error e => .error e
     | .ok _ =>
        .error (.typeError "initialize() missing 1 required positional argument: tracer_provider"))
  else
    (st1,
     .error (.typeError "initialize() missing 1 required positional argument: tracer_provider"))

/-! ## Session cache under concurrency (claim C5)

Modelled from the spec: `ThreadSafeCache`
(`common/utilities/thread_safe_cache.py` is not among the reviewed sources;
spec §4.1 specifies `get`/`add` as lock-protected single operations).  Each
cache operation is one atomic step; the code *between* the operations in
`app.py run_agent_orchestration` (lines 106–147) is `await`-laden, so two
asyncio worker loops can interleave there.  Two workers race on the same
previously-unseen session id.  On a miss the worker awaits
`get_orchestrator_runtime_config` and then calls
`AgentOrchestrator(logger=..., message_handler=..., jira_settings=...,
devops_settings=..., visualization_settings=..., configuration=...,
project_endpoint=...)` (app.py lines 119–140);
`AgentOrchestrator.__init__` (agent_orchestrator.py lines 59–68) accepts no
`devops_settings` parameter and requires `mcp_plugin_factory`, so the call
raises `TypeError`; the top-level handler (app.py lines 154–164) catches it
and publishes the generic error response, and `add_async` (line 146) is never
executed. -/

/-- Where a worker is inside the lookup-or-create sequence of
`run_agent_orchestration`: about to `get_async`; past a miss, about to run
the creation block (config resolution, then the `AgentOrchestrator`
constructor call); or finished (hit, or the creation block's `TypeError`
caught and turned into the error response). -/
inductive WorkerPC
  | atGet
  | atCreate
  | done
  deriving DecidableEq, Repr

/-- Global state of the two-worker race: the cache slot for the contended
session id, how many times the orchestrator creation block was entered, and
both workers' positions. -/
structure SessionCacheSystem where
  cache : Option Nat := none
  create_count : Nat := 0
  pc1 : WorkerPC := .atGet
  pc2 : WorkerPC := .atGet
  deriving DecidableEq, Repr

/-- One atomic step of a worker: a `get_async` hit finishes immediately
(drive the cached orchestrator); a miss moves to the creation block; the
creation block raises `TypeError` at the `AgentOrchestrator(...)` call, the
top-level handler publishes the error response, and the worker finishes —
`add_async` is never reached, so the cache is never written. -/
def worker_step (pc : WorkerPC) (s : SessionCacheSystem) :
    WorkerPC × SessionCacheSystem :=
  match pc with
  | .atGet =>
      if s.cache.isSome then (.done, s)
      else (.atCreate, s)
  | .atCreate => (.done, { s with create_count := s.create_count + 1 })
  | .done => (.done, s)

/-- Scheduler step: `true` runs worker 1, `false` runs worker 2. -/
def system_step (s : SessionCacheSystem) (w : Bool) : SessionCacheSystem :=
  if w then
    let r := worker_step s.pc1 s
    { r.2 with pc1 := r.1 }
  else
    let r := worker_step s.pc2 s
    { r.2 with pc2 := r.1 }

/-- Run a whole interleaving schedule from a state. -/
def run_schedule (s : SessionCacheSystem) : List Bool → SessionCacheSystem
  | [] => s
  | w :: rest => run_schedule (system_step s w) rest

/-! ## Derived descriptions used in theorem statements -/

/-- The chat history right after `start_agent_workflow` appends the incoming
user turn (line 314). -/
def hist_after_user (st : OrchestratorState) (request : Request) : List ChatEntry :=
  st.chat_history ++ [ChatEntry.user request.message]

/-- Functional description of the `intermediate_context` accumulated by the
plan loop: the cleaned reply of every non-visualization agent, each followed
by a blank line, concatenated in plan order. -/
def plan_context (env : Env) (st : OrchestratorState) : List String → String
  | [] => ""
  | name :: rest =>
    match Agent.fromString name with
    | some a =>
        (if a = Agent.VISUALIZATION_AGENT then ""
         else clean_text (env.oracle a st.chat_history) ++ "\n\n") ++ plan_context env st rest
    | none => plan_context env st rest

/-! ## Concrete fixtures for counterexamples and witnesses -/

/-- A session state with all five bindings populated and an empty history. -/
def demo_state : OrchestratorState :=
  { chat_history := [], bindings := init_agents }

/-- A concrete orchestration request. -/
def demo_request : Request :=
  { session_id := "s1", dialog_id := "d1", user_id := "u1", message := "hello" }

/-- An environment whose planner reply does not parse as JSON. -/
def env_malformed : Env :=
  { planner := fun _ => .malformed, oracle := fun _ _ => "", vizUrls := [] }

/-- An environment whose planner proposes `["JIRA_AGENT", "AZURE_DEVOPS_AGENT"]`
and whose agents answer `"JOUT"` and `"BOUT"`. -/
def env_two_agents : Env :=
  { planner := fun _ => .fields (some "p1") (some ["JIRA_AGENT", "AZURE_DEVOPS_AGENT"]) "j"
    oracle := fun a _ =>
      match a with
      | .JIRA_AGENT => "JOUT"
      | .AZURE_DEVOPS_AGENT => "BOUT"
      | _ => ""
    vizUrls := [] }

/-- An environment whose planner proposes an unknown agent identifier next to
the fallback identifier. -/
def env_unknown_and_fallback : Env :=
  { planner := fun _ => .fields (some "p1") (some ["XYZ", "FALLBACK_AGENT"]) "j"
    oracle := fun a _ => match a with | .FALLBACK_AGENT => "fb" | _ => ""
    vizUrls := [] }

/-- An environment whose planner proposes an empty agent list. -/
def env_empty_plan : Env :=
  { planner := fun _ => .fields (some "p1") (some []) "j"
    oracle := fun _ _ => "", vizUrls := [] }

/-- An environment whose planner proposes only the deprecated `DEVOPS_AGENT`,
which is a valid enum member with no runtime binding. -/
def env_devops_only : Env :=
  { planner := fun _ => .fields (some "p1") (some ["DEVOPS_AGENT"]) "j"
    oracle := fun _ _ => "", vizUrls := [] }

/-- Valid MCP settings with one essential category, matching the spec's §8
category-validation example. -/
def demo_wit_settings : DevOpsMcpSettings :=
  { azure_org_name := "contoso"
    mcp_server_command := "npx"
    mcp_server_args := ["-y", "@azure-devops/mcp", "contoso"]
    mcp_timeout := some 30
    max_retries := some 3
    retry_delay := some 5
    essential_tool_categories := [("work_items", ["wit"])] }

/-! ## Helper lemmas -/

theorem Agent.fromString_value (a : Agent) : Agent.fromString a.value = some a := by
  cases a <;> rfl

theorem Agent.value_eq_iff {a b : Agent} : a.value = b.value ↔ a = b := by
  cases a <;> cases b <;> decide

theorem str_append_empty (s : String) : s ++ "" = s := by
  cases s with
  | mk data => show String.mk (data ++ []) = String.mk data; rw [List.append_nil]

theorem str_empty_append (s : String) : "" ++ s = s := rfl

theorem str_append_assoc (a b c : String) : a ++ b ++ c = a ++ (b ++ c) := by
  cases a with
  | mk da =>
    cases b with
    | mk db =>
      cases c with
      | mk dc => show String.mk (da ++ db ++ dc) = String.mk (da ++ (db ++ dc))
                 rw [List.append_assoc]

/-- The plan loop succeeds when every plan entry resolves to a bound agent,
and its `intermediate_context` is the initial accumulator followed by
`plan_context`. -/
theorem run_plan_agents_bound_ok (env : Env) (st : OrchestratorState) :
    ∀ (names : List String) (ic0 : String) (viz0 : List String) (tr0 : List InvokeEvent),
      (∀ n ∈ names, agent_bound st n = true) →
      ∃ tr viz, run_plan_agents env st names ic0 viz0 tr0 =
        (tr, .ok (ic0 ++ plan_context env st names, viz)) := by
  intro names
  induction names with
  | nil =>
    intro ic0 viz0 tr0 _
    exact ⟨tr0.reverse, viz0, by simp [run_plan_agents, plan_context, str_append_empty]⟩
  | cons name rest ih =>
    intro ic0 viz0 tr0 hall
    have hhead := hall name (by simp)
    have hrest : ∀ n ∈ rest, agent_bound st n = true := fun n hn => hall n (by simp [hn])
    unfold agent_bound at hhead
    rcases hfs : Agent.fromString name with _ | a
    · rw [hfs] at hhead; simp at hhead
    · rw [hfs] at hhead
      have hmem : a ∈ st.bindings := by simpa using hhead
      by_cases hV : a = Agent.VISUALIZATION_AGENT
      · subst hV
        obtain ⟨tr, viz, heq⟩ :=
          ih ic0 env.vizUrls (⟨Agent.VISUALIZATION_AGENT, st.chat_history⟩ :: tr0) hrest
        exact ⟨tr, viz, by
          simp [run_plan_agents, hfs, hmem, heq, plan_context, str_empty_append]⟩
      · obtain ⟨tr, viz, heq⟩ :=
          ih (ic0 ++ clean_text (env.oracle a st.chat_history) ++ "\n\n") viz0
            (⟨a, st.chat_history⟩ :: tr0) hrest
        exact ⟨tr, viz, by
          simp only [str_append_assoc] at heq
          simp [run_plan_agents, hfs, hmem, hV, plan_context, str_append_assoc, heq]⟩

/-- The plan loop raises when some plan entry does not resolve to a bound
agent. -/
theorem run_plan_agents_unbound (env : Env) (st : OrchestratorState) :
    ∀ (names : List String) (ic0 : String) (viz0 : List String) (tr0 : List InvokeEvent),
      (∃ n ∈ names, agent_bound st n = false) →
      ∃ tr e, run_plan_agents env st names ic0 viz0 tr0 = (tr, .error e) := by
  intro names
  induction names with
  | nil => intro ic0 viz0 tr0 hex; simp at hex
  | cons name rest ih =>
    intro ic0 viz0 tr0 hex
    by_cases hhead : agent_bound st name = true
    · have hmatch := hhead
      unfold agent_bound at hmatch
      rcases hfs : Agent.fromString name with _ | a
      · rw [hfs] at hmatch; simp at hmatch
      · rw [hfs] at hmatch
        have hmem : a ∈ st.bindings := by simpa using hmatch
        have hrest : ∃ n ∈ rest, agent_bound st n = false := by
          rcases hex with ⟨n, hn, hbn⟩
          rcases List.mem_cons.mp hn with rfl | hn'
          · rw [hhead] at hbn; cases hbn
          · exact ⟨n, hn', hbn⟩
        by_cases hV : a = Agent.VISUALIZATION_AGENT
        · subst hV
          obtain ⟨tr, e, heq⟩ :=
            ih ic0 env.vizUrls (⟨Agent.VISUALIZATION_AGENT, st.chat_history⟩ :: tr0) hrest
          exact ⟨tr, e, by simp [run_plan_agents, hfs, hmem, heq]⟩
        · obtain ⟨tr, e, heq⟩ :=
            ih (ic0 ++ clean_text (env.oracle a st.chat_history) ++ "\n\n") viz0
              (⟨a, st.chat_history⟩ :: tr0) hrest
          exact ⟨tr, e, by simp [run_plan_agents, hfs, hmem, hV, heq]⟩
    · unfold agent_bound at hhead
      rcases hfs : Agent.fromString name with _ | a
      · exact ⟨tr0.reverse, PyErr.valueError (name ++ " is not a valid Agent"),
          by simp [run_plan_agents, hfs]⟩
      · rw [hfs] at hhead
        have hmem : a ∉ st.bindings := by simpa using hhead
        exact ⟨tr0.reverse, PyErr.valueError ("Agent " ++ name ++ " not found in configuration."),
          by simp [run_plan_agents, hfs, hmem]⟩

/-! ## Claim C1 -/

/-- Claim C1, counterexample: with all five bindings in place and a planner
reply that does not parse as JSON, the request does *not* complete via the
fallback path — the `ValueError` from `__parse_planner_agent_response`
propagates to the top-level handler, and the delivered `Response` has `error`
*set* (and an empty answer), contradicting "error unset". -/
theorem C1_counterexample :
    (run_agent_orchestration env_malformed demo_state (some demo_request)).2.2.error =
      some { error_str := "An error occurred. Please retry..", retry := false } ∧
    (run_agent_orchestration env_malformed demo_state (some demo_request)).2.2.answer.is_final
      = true ∧
    (run_agent_orchestration env_malformed demo_state (some demo_request)).2.1.map
      InvokeEvent.agent = [Agent.PLANNER_AGENT] := by
  decide

/-- Claim C1 (amended): an unparsable planner payload makes the request fail
with the single generic error response (`is_final=true`, `error` populated);
a plan with an *empty* agent list completes via the normal execution path with
zero plan-agent invocations, yielding `is_final=true`, `error` unset and an
empty answer; the fallback path runs exactly when the parsed agent list
contains the fallback agent's identifier, and then the `Response` has
`is_final=true` and `error` unset. -/
theorem C1_fallback_totality (env : Env) (st : OrchestratorState) (req : Request)
    (hP : Agent.PLANNER_AGENT ∈ st.bindings) :
    (env.planner (hist_after_user st req) = PlannerPayload.malformed →
      (run_agent_orchestration env st (some req)).2.2 = generic_error_response req) ∧
    (∀ pid j, env.planner (hist_after_user st req) = PlannerPayload.fields pid (some []) j →
      (run_agent_orchestration env st (some req)).2.2 = exec_response req "" []) ∧
    (∀ pid ags j, env.planner (hist_after_user st req) = PlannerPayload.fields pid (some ags) j →
      Agent.FALLBACK_AGENT.value ∈ ags → Agent.FALLBACK_AGENT ∈ st.bindings →
      (run_agent_orchestration env st (some req)).2.2 =
        fallback_response req (env.oracle Agent.FALLBACK_AGENT [ChatEntry.user req.message])) := by
  simp only [hist_after_user] at *
  refine ⟨fun h => ?_, fun pid j h => ?_, fun pid ags j h hm hf => ?_⟩
  · simp [run_agent_orchestration, start_agent_workflow, workflow_core, after_planner,
      parse_planner_agent_response, hP, h]
  · simp [run_agent_orchestration, start_agent_workflow, workflow_core, after_planner,
      parse_planner_agent_response, run_plan_agents, hP, h, str_append_empty]
  · simp [run_agent_orchestration, start_agent_workflow, workflow_core, after_planner,
      parse_planner_agent_response, hP, h, hm, hf]

/-- Claim C1, witness for the amended theorem at concrete inputs. -/
theorem C1_witness :
    (run_agent_orchestration env_malformed demo_state (some demo_request)).2.2 =
      generic_error_response demo_request ∧
    (run_agent_orchestration env_empty_plan demo_state (some demo_request)).2.2 =
      exec_response demo_request "" [] := by
  refine ⟨(C1_fallback_totality env_malformed demo_state demo_request (by decide)).1 rfl, ?_⟩
  exact (C1_fallback_totality env_empty_plan demo_state demo_request (by decide)).2.1
    (some "p1") "j" rfl

/-! ## Claim C2 -/

/-- Claim C2, counterexample: for the parsed plan
`[JIRA_AGENT, AZURE_DEVOPS_AGENT]`, agent A (`JIRA_AGENT`, output `"JOUT"`)
runs before agent B (`AZURE_DEVOPS_AGENT`), but B's invocation input is the
same pre-plan history `[user "hello"]` — it does not include A's output (no
entry of it even mentions `"JOUT"`), and nothing is appended to the session
chat history between the two invocations: the single combined element is
appended only after the loop. -/
theorem C2_counterexample :
    (run_agent_orchestration env_two_agents demo_state (some demo_request)).2.1 =
      [⟨Agent.PLANNER_AGENT, [ChatEntry.user "hello"]⟩,
       ⟨Agent.JIRA_AGENT, [ChatEntry.user "hello"]⟩,
       ⟨Agent.AZURE_DEVOPS_AGENT, [ChatEntry.user "hello"]⟩] ∧
    (∀ e ∈ ([ChatEntry.user "hello"] : List ChatEntry),
      substr_occurs "JOUT" e.text = false) ∧
    (run_agent_orchestration env_two_agents demo_state (some demo_request)).1.chat_history =
      [ChatEntry.user "hello", ChatEntry.raw "JOUT\n\nBOUT\n\n"] := by
  decide

/-- Claim C2 (amended): for a parsed plan `[A, B]` of bound,
non-visualization, non-fallback agents, A is invoked strictly before B, but
both invocations receive the *same* input — the chat history as of the start
of the request plus the new user turn; A's and B's outputs are appended to
the session chat history only after the loop, as one combined element in
which A's cleaned output text precedes B's; that combined text is also the
final answer. -/
theorem C2_plan_ordering (env : Env) (st : OrchestratorState) (req : Request)
    (a b : Agent) (pid : Option String) (j : String)
    (hP : Agent.PLANNER_AGENT ∈ st.bindings)
    (ha : a ∈ st.bindings) (hb : b ∈ st.bindings)
    (haV : a ≠ Agent.VISUALIZATION_AGENT) (hbV : b ≠ Agent.VISUALIZATION_AGENT)
    (haF : a ≠ Agent.FALLBACK_AGENT) (hbF : b ≠ Agent.FALLBACK_AGENT)
    (hplan : env.planner (hist_after_user st req) =
      PlannerPayload.fields pid (some [a.value, b.value]) j) :
    (start_agent_workflow env st req).trace =
      [⟨Agent.PLANNER_AGENT, hist_after_user st req⟩, ⟨a, hist_after_user st req⟩,
       ⟨b, hist_after_user st req⟩] ∧
    (start_agent_workflow env st req).state.chat_history =
      st.chat_history ++ [ChatEntry.user req.message,
        ChatEntry.raw (clean_text (env.oracle a (hist_after_user st req)) ++
          ("\n\n" ++ (clean_text (env.oracle b (hist_after_user st req)) ++ "\n\n")))] ∧
    (start_agent_workflow env st req).result =
      .ok (exec_response req (clean_text (env.oracle a (hist_after_user st req)) ++
        ("\n\n" ++ (clean_text (env.oracle b (hist_after_user st req)) ++ "\n\n"))) []) := by
  have hfa : ¬ Agent.FALLBACK_AGENT.value = a.value :=
    fun hh => haF (Agent.value_eq_iff.mp hh).symm
  have hfb : ¬ Agent.FALLBACK_AGENT.value = b.value :=
    fun hh => hbF (Agent.value_eq_iff.mp hh).symm
  simp only [hist_after_user] at *
  simp [start_agent_workflow, workflow_core, after_planner, parse_planner_agent_response,
    run_plan_agents, Agent.fromString_value, hP, ha, hb, haV, hbV, hfa, hfb, hplan,
    str_empty_append, str_append_assoc]

/-- Claim C2, witness for the amended theorem at concrete inputs. -/
theorem C2_witness :
    (start_agent_workflow env_two_agents demo_state demo_request).trace =
      [⟨Agent.PLANNER_AGENT, [ChatEntry.user "hello"]⟩,
       ⟨Agent.JIRA_AGENT, [ChatEntry.user "hello"]⟩,
       ⟨Agent.AZURE_DEVOPS_AGENT, [ChatEntry.user "hello"]⟩] := by
  have h := C2_plan_ordering env_two_agents demo_state demo_request
    Agent.JIRA_AGENT Agent.AZURE_DEVOPS_AGENT (some "p1") "j"
    (by decide) (by decide) (by decide) (by decide) (by decide) (by decide) (by decide) rfl
  simpa [demo_state, demo_request, hist_after_user] using h.1

/-! ## Structural lemmas about `start_agent_workflow` and
`run_agent_orchestration` -/

theorem start_state_chat_cases (env : Env) (st : OrchestratorState) (req : Request) :
    (start_agent_workflow env st req).state.chat_history = hist_after_user st req ∨
    ∃ ic, (start_agent_workflow env st req).state.chat_history =
      hist_after_user st req ++ [ChatEntry.raw ic] := by
  unfold start_agent_workflow
  rcases h : workflow_core env
      { st with chat_history := st.chat_history ++ [ChatEntry.user req.message] } req
    with ⟨tr, core⟩
  match core with
  | .error e => exact Or.inl (by simp [h, hist_after_user])
  | .ok (none, resp) => exact Or.inl (by simp [h, hist_after_user])
  | .ok (some ic, resp) => exact Or.inr ⟨ic, by simp [h, hist_after_user]⟩

theorem start_state_bindings (env : Env) (st : OrchestratorState) (req : Request) :
    (start_agent_workflow env st req).state.bindings = st.bindings := by
  unfold start_agent_workflow
  rcases h : workflow_core env
      { st with chat_history := st.chat_history ++ [ChatEntry.user req.message] } req
    with ⟨tr, core⟩
  match core with
  | .error e => simp [h]
  | .ok (none, resp) => simp [h]
  | .ok (some ic, resp) => simp [h]

theorem start_error_state (env : Env) (st : OrchestratorState) (req : Request) (e : PyErr)
    (herr : (start_agent_workflow env st req).result = .error e) :
    (start_agent_workflow env st req).state =
      { st with chat_history := hist_after_user st req } := by
  unfold start_agent_workflow at herr ⊢
  rcases h : workflow_core env
      { st with chat_history := st.chat_history ++ [ChatEntry.user req.message] } req
    with ⟨tr, core⟩
  rw [h] at herr
  match core with
  | .error e0 => simp [h, hist_after_user]
  | .ok (none, resp) => simp at herr
  | .ok (some ic, resp) => simp at herr

theorem start_trace_head (env : Env) (st : OrchestratorState) (req : Request)
    (hP : Agent.PLANNER_AGENT ∈ st.bindings) :
    (start_agent_workflow env st req).trace.head? =
      some ⟨Agent.PLANNER_AGENT, hist_after_user st req⟩ := by
  unfold start_agent_workflow workflow_core
  rcases h : after_planner env
      { st with chat_history := st.chat_history ++ [ChatEntry.user req.message] } req
    with ⟨tr2, res⟩
  match res with
  | .error e0 => simp [h, hP, hist_after_user]
  | .ok (none, resp) => simp [h, hP, hist_after_user]
  | .ok (some ic, resp) => simp [h, hP, hist_after_user]

theorem run_some_eq (env : Env) (st : OrchestratorState) (req : Request) :
    run_agent_orchestration env st (some req) =
      ((start_agent_workflow env st req).state, (start_agent_workflow env st req).trace,
       match (start_agent_workflow env st req).result with
       | .ok resp => resp
       | .error _ => generic_error_response req) := by
  rcases h : start_agent_workflow env st req with ⟨s, t, r⟩
  cases r <;> simp [run_agent_orchestration, h]

/-! ## Claim C3 -/

/-- Claim C3, counterexample: the history element added by plan execution is
a single string holding *both* agents' cleaned outputs — it is not the output
of exactly one agent invocation (two plan-agent invocations happened, one
element was added, equal to neither single output). -/
theorem C3_counterexample :
    (run_agent_orchestration env_two_agents demo_state (some demo_request)).1.chat_history =
      [ChatEntry.user "hello", ChatEntry.raw "JOUT\n\nBOUT\n\n"] ∧
    (run_agent_orchestration env_two_agents demo_state (some demo_request)).2.1.length = 3 ∧
    "JOUT\n\nBOUT\n\n" ≠
      env_two_agents.oracle Agent.JIRA_AGENT [ChatEntry.user "hello"] ∧
    "JOUT\n\nBOUT\n\n" ≠
      env_two_agents.oracle Agent.AZURE_DEVOPS_AGENT [ChatEntry.user "hello"] := by
  decide

/-- Claim C3 (amended): the chat history is append-only — every
`start_agent_workflow` call leaves the prior history as a prefix — and a
completed plan execution appends, after the user turn, exactly *one* element:
the concatenation, in plan order, of the cleaned outputs of the
non-visualization plan agents (not one element per invocation). -/
theorem C3_append_only (env : Env) (st : OrchestratorState) (req : Request) :
    (∃ tail, (start_agent_workflow env st req).state.chat_history =
      st.chat_history ++ tail) ∧
    (∀ pid ags j,
      Agent.PLANNER_AGENT ∈ st.bindings →
      env.planner (hist_after_user st req) = PlannerPayload.fields pid (some ags) j →
      Agent.FALLBACK_AGENT.value ∉ ags →
      (∀ n ∈ ags, agent_bound st n = true) →
      (start_agent_workflow env st req).state.chat_history =
        st.chat_history ++ [ChatEntry.user req.message,
          ChatEntry.raw (plan_context env
            { st with chat_history := hist_after_user st req } ags)]) := by
  constructor
  · rcases start_state_chat_cases env st req with h | ⟨ic, h⟩
    · exact ⟨[ChatEntry.user req.message], by simp [h, hist_after_user]⟩
    · exact ⟨[ChatEntry.user req.message, ChatEntry.raw ic],
        by simp [h, hist_after_user]⟩
  · intro pid ags j hP hplan hnf hall
    obtain ⟨tr, viz, heq⟩ := run_plan_agents_bound_ok env
      { st with chat_history := hist_after_user st req } ags "" [] [] hall
    simp only [hist_after_user] at *
    simp [start_agent_workflow, workflow_core, after_planner, parse_planner_agent_response,
      hP, hplan, hnf, heq, str_empty_append]

/-- Claim C3, witness for the amended theorem at concrete inputs. -/
theorem C3_witness :
    (start_agent_workflow env_two_agents demo_state demo_request).state.chat_history =
      [ChatEntry.user "hello", ChatEntry.raw "JOUT\n\nBOUT\n\n"] := by
  have h := (C3_append_only env_two_agents demo_state demo_request).2
    (some "p1") ["JIRA_AGENT", "AZURE_DEVOPS_AGENT"] "j"
    (by decide) rfl (by decide) (by decide)
  simpa [demo_state, demo_request, hist_after_user, plan_context, clean_text,
    Agent.fromString] using h

/-! ## Claim C4 -/

/-- Claim C4, counterexample: the parsed plan `["XYZ", "FALLBACK_AGENT"]`
contains the identifier `"XYZ"`, which has no binding, yet request processing
does *not* raise — the pre-loop fallback test fires first, the unknown step is
silently skipped, and the client receives a successful final `Response` with
`error` unset. -/
theorem C4_counterexample :
    agent_bound demo_state "XYZ" = false ∧
    (run_agent_orchestration env_unknown_and_fallback demo_state (some demo_request)).2.2 =
      { session_id := some "s1", dialog_id := some "d1", user_id := some "u1",
        answer := { answer_string := "fb", is_final := true, data_points := [],
                    speaker_locale := none },
        error := none } := by
  decide

/-- Claim C4 (amended): for a parsed plan whose agent list does *not* contain
the fallback identifier, any entry that resolves to no runtime binding
(unknown enum value, or enum member absent from the map) makes the loop raise
`ValueError`; the error propagates to the top-level handler and the client
receives the single generic final `Response` with `is_final=true` and `error`
populated. -/
theorem C4_unknown_agent (env : Env) (st : OrchestratorState) (req : Request)
    (pid : Option String) (ags : List String) (j : String)
    (hP : Agent.PLANNER_AGENT ∈ st.bindings)
    (hplan : env.planner (hist_after_user st req) = PlannerPayload.fields pid (some ags) j)
    (hnf : Agent.FALLBACK_AGENT.value ∉ ags)
    (hbad : ∃ n ∈ ags, agent_bound st n = false) :
    (run_agent_orchestration env st (some req)).2.2 = generic_error_response req ∧
    (run_agent_orchestration env st (some req)).2.2.answer.is_final = true ∧
    (run_agent_orchestration env st (some req)).2.2.error.isSome = true := by
  obtain ⟨tr, e, heq⟩ := run_plan_agents_unbound env
    { st with chat_history := hist_after_user st req } ags "" [] [] hbad
  simp only [hist_after_user] at *
  refine ⟨?_, ?_, ?_⟩ <;>
    simp [run_agent_orchestration, start_agent_workflow, workflow_core, after_planner,
      parse_planner_agent_response, hP, hplan, hnf, heq, generic_error_response]

/-- Claim C4, witness for the amended theorem at concrete inputs (the
deprecated `DEVOPS_AGENT` is a valid enum member with no runtime binding). -/
theorem C4_witness :
    (run_agent_orchestration env_devops_only demo_state (some demo_request)).2.2 =
      generic_error_response demo_request := by
  exact (C4_unknown_agent env_devops_only demo_state demo_request
    (some "p1") ["DEVOPS_AGENT"] "j" (by decide) rfl (by decide)
    ⟨"DEVOPS_AGENT", by decide, by decide⟩).1

/-! ## Claim C10 -/

/-- Claim C10: a failed request is not atomic with respect to session state —
the user turn appended before planning survives the failure: the state kept
in the session cache ends with that turn, the client still gets the generic error
response, and the next request on the same session hands the planner a history
that includes the failed turn. -/
theorem C10_failed_turn_retained (env : Env) (st : OrchestratorState) (req : Request)
    (e : PyErr) (herr : (start_agent_workflow env st req).result = .error e) :
    (run_agent_orchestration env st (some req)).2.2 = generic_error_response req ∧
    (run_agent_orchestration env st (some req)).1.chat_history = hist_after_user st req ∧
    (run_agent_orchestration env st (some req)).1.bindings = st.bindings ∧
    (∀ env2 req2, Agent.PLANNER_AGENT ∈ st.bindings →
      (run_agent_orchestration env2 (run_agent_orchestration env st (some req)).1
          (some req2)).2.1.head? =
        some ⟨Agent.PLANNER_AGENT,
          st.chat_history ++ [ChatEntry.user req.message, ChatEntry.user req2.message]⟩ ∧
      ChatEntry.user req.message ∈
        st.chat_history ++ [ChatEntry.user req.message, ChatEntry.user req2.message]) := by
  have hstate := start_error_state env st req e herr
  have hrun := run_some_eq env st req
  refine ⟨?_, ?_, ?_, ?_⟩
  · rw [hrun]; simp [herr]
  · rw [hrun]; simp [hstate]
  · rw [hrun]; simp [hstate]
  · intro env2 req2 hP
    constructor
    · have hrun2 := run_some_eq env2 (run_agent_orchestration env st (some req)).1 req2
      rw [hrun2]
      have hP' : Agent.PLANNER_AGENT ∈ (run_agent_orchestration env st (some req)).1.bindings := by
        rw [hrun]; simpa [hstate] using hP
      have hh := start_trace_head env2 (run_agent_orchestration env st (some req)).1 req2 hP'
      rw [hh]
      rw [hrun]
      simp [hstate, hist_after_user]
    · simp

/-- Claim C10, witness at concrete inputs: a request failing on an unparsable
planner payload leaves the user turn in the cached session history. -/
theorem C10_witness :
    (run_agent_orchestration env_malformed demo_state (some demo_request)).1.chat_history =
      hist_after_user demo_state demo_request :=
  (C10_failed_turn_retained env_malformed demo_state demo_request
    (PyErr.valueError "Invalid JSON response from planner agent.") rfl).2.1

/-! ## Claim C5 -/

/-- Claim C5 (code bug): the spec's lookup-or-create contract cannot hold of
the code.  Two concurrent arrivals for the same unseen session id both miss
and both *enter* the creation block (two entries, not one factory invocation
as claimed), and under *every* interleaving the cache never gains a handle,
because each creation attempt dies in the `TypeError` at the
`AgentOrchestrator(...)` call (unexpected `devops_settings`, missing required
`mcp_plugin_factory`) before `add_async` can run. -/
theorem C5_creation_never_cached :
    (run_schedule {} [true, true, false, false]).create_count = 2 ∧
    (run_schedule {} [true, true, false, false]).pc1 = WorkerPC.done ∧
    (run_schedule {} [true, true, false, false]).pc2 = WorkerPC.done ∧
    (run_schedule {} [true, true, false, false]).cache = none ∧
    (∀ sched : List Bool, (run_schedule {} sched).cache = none) := by
  have hkeep : ∀ (sched : List Bool) (s : SessionCacheSystem),
      s.cache = none → (run_schedule s sched).cache = none := by
    intro sched
    induction sched with
    | nil => intro s h; exact h
    | cons w rest ih =>
      intro s h
      refine ih _ ?_
      rcases s with ⟨c, cc, p1, p2⟩
      cases h
      cases w <;> cases p1 <;> cases p2 <;> rfl
  exact ⟨by decide, by decide, by decide, by decide, fun sched => hkeep sched {} rfl⟩

/-! ## Claim C6 -/

/-- Claim C6 (code bug): `create_agent` cannot fail with the claimed
configuration error for a missing upstream client, because that check is
unreachable.  Building the `_agent_creators` dict raises `AttributeError`
(`Agent.FINAL_ANSWER_GENERATOR_AGENT` is not an enum member), so the one
reachable factory instance has an *empty* registry and — even granting an
initialized factory with the Foundry client absent, the claim's trigger —
every `create_agent` call returns the unsupported-agent-type `ValueError`
instead of a client-configuration error; and even a hypothetically populated
registry could not reach `AgentBase.initialize`'s client checks, because
every creation routine first dies in the `TypeError` of its
`get_instance(self.logger, self.tracer_provider)` call (the factory's own
client guard at lines 136–139, `configuration is AzureAIAgentConfig`, is dead
code besides). -/
theorem C6_client_check_unreachable :
    _setup_agent_creators = Except.error PyErr.attributeError ∧
    broken_factory_registry = [] ∧
    (∀ (kind : AgentConfigKind) (context : AgentCreationContext) (a : Agent),
      create_agent ⟨true, none, some (), broken_factory_registry⟩ a
          (PyObj.configInstance kind) context =
        Except.error (PyErr.valueError ("Unsupported agent type: " ++ a.value))) ∧
    (∀ (f : ReleaseManagerAgentFactory) (configuration : PyObj),
      _create_planner_agent f configuration =
        Except.error
          (PyErr.typeError "get_instance() takes 2 positional arguments but 3 were given")) ∧
    (∀ (f : ReleaseManagerAgentFactory) (configuration : PyObj),
      _create_fallback_agent f configuration =
        Except.error
          (PyErr.typeError "get_instance() got an unexpected keyword argument tracer_provider")) := by
  refine ⟨rfl, rfl, ?_, fun f configuration => rfl, fun f configuration => rfl⟩
  intro kind context a
  rfl

/-! ## Claim C7 -/

theorem assoc_key_unique {α β : Type} :
    ∀ (l : List (α × β)) (c : α) (p1 p2 : β),
      (l.map Prod.fst).Nodup → (c, p1) ∈ l → (c, p2) ∈ l → p1 = p2 := by
  intro l
  induction l with
  | nil => intro c p1 p2 _ h1; simp at h1
  | cons hd tl ih =>
    intro c p1 p2 hnd h1 h2
    simp only [List.map_cons, List.nodup_cons] at hnd
    rcases List.mem_cons.mp h1 with he1 | h1'
    · rcases List.mem_cons.mp h2 with he2 | h2'
      · rw [← he1] at he2; exact (Prod.mk.injEq _ _ _ _ ▸ he2.symm).2
      · exfalso
        exact hnd.1 (he1 ▸ (List.mem_map.mpr ⟨(c, p2), h2', rfl⟩))
    · rcases List.mem_cons.mp h2 with he2 | h2'
      · exfalso
        exact hnd.1 (he2 ▸ (List.mem_map.mpr ⟨(c, p1), h1', rfl⟩))
      · exact ih c p1 p2 hnd.2 h1' h2'

/-- A category is listed by `__validate_tool_categories` exactly when no
discovered tool name, lowercased, contains all of the category's patterns
verbatim. -/
theorem mem_validate_tool_categories (functions : List String)
    (ess : List (String × List String)) (c : String) (pats : List String)
    (hnodup : (ess.map Prod.fst).Nodup) (hmem : (c, pats) ∈ ess)
    (hne : functions ≠ []) :
    (c ∈ __validate_tool_categories functions ess ↔
      ¬ ∃ name ∈ functions, ∀ pat ∈ pats, substr_occurs pat (str_lower name) = true) := by
  have hess : ess.isEmpty = false := by
    cases ess with
    | nil => simp at hmem
    | cons h t => rfl
  have hfun : functions.isEmpty = false := by
    cases functions with
    | nil => simp at hne
    | cons h t => rfl
  unfold __validate_tool_categories
  simp only [hess, hfun, Bool.false_eq_true, if_false]
  constructor
  · rintro hc hex
    rw [List.mem_map] at hc
    obtain ⟨cp, hcp_mem, hcp_eq⟩ := hc
    rw [List.mem_filter] at hcp_mem
    obtain ⟨hcp_in, hcp_fail⟩ := hcp_mem
    obtain ⟨c', pats'⟩ := cp
    simp only at hcp_eq
    subst hcp_eq
    have hpp : pats' = pats := assoc_key_unique ess c' pats' pats hnodup hcp_in hmem
    subst hpp
    obtain ⟨name, hname, hall⟩ := hex
    rw [Bool.not_eq_true', List.any_eq_false] at hcp_fail
    have hthis := hcp_fail (str_lower name) (List.mem_map.mpr ⟨name, hname, rfl⟩)
    rw [List.all_eq_true] at hthis
    exact hthis hall
  · intro hnot
    rw [List.mem_map]
    refine ⟨(c, pats), ?_, rfl⟩
    rw [List.mem_filter]
    refine ⟨hmem, ?_⟩
    rw [Bool.not_eq_true', List.any_eq_false]
    intro name hname
    rw [List.mem_map] at hname
    obtain ⟨orig, horig, rfl⟩ := hname
    rw [List.all_eq_true]
    intro hall
    exact hnot ⟨orig, horig, hall⟩

/-- Claim C7, counterexample: for discovered tools `["wit_list"]` and the
category `{"work_items": ["WIT"]}`, the pattern *is* a case-insensitive
substring of the tool name (the spec-worded predicate holds), yet the code
reports the category missing — only the tool names are lowercased, the
patterns are matched verbatim. -/
theorem C7_counterexample :
    __validate_tool_categories ["wit_list"] [("work_items", ["WIT"])] = ["work_items"] ∧
    spec_category_present ["WIT"] ["wit_list"] = true := by
  decide

/-- Claim C7 (amended): with a non-empty discovered catalog and distinct
category names, a category is reported missing iff no discovered tool name,
*lowercased*, contains all of the category's patterns verbatim as substrings
(case-insensitive only on the tool-name side); missing categories appear only
in the returned status, and `create_plugin` still succeeds. -/
theorem C7_category_validation (settings : DevOpsMcpSettings)
    (discovery : DiscoveryOutcome) (c : String) (pats : List String)
    (hok : __validate_settings settings = .ok ())
    (hnodup : (settings.essential_tool_categories.map Prod.fst).Nodup)
    (hmem : (c, pats) ∈ settings.essential_tool_categories)
    (hne : __discover_tools discovery ≠ []) :
    ∃ status, create_plugin settings discovery = .ok status ∧
      (c ∈ status.missing_categories ↔
        ¬ ∃ name ∈ __discover_tools discovery, ∀ pat ∈ pats,
          substr_occurs pat (str_lower name) = true) := by
  rcases hcp : create_plugin settings discovery with e | status
  · exfalso
    rw [create_plugin, hok] at hcp
    simp at hcp
  · refine ⟨status, rfl, ?_⟩
    rw [create_plugin, hok] at hcp
    simp only [Except.ok.injEq] at hcp
    subst hcp
    exact mem_validate_tool_categories (__discover_tools discovery)
      settings.essential_tool_categories c pats hnodup hmem hne

/-- Claim C7, witness for the amended theorem at the spec's §8 example
inputs. -/
theorem C7_witness :
    ∃ status, create_plugin demo_wit_settings
        (DiscoveryOutcome.tools ["wit_list", "repo_search"]) = .ok status ∧
      (("work_items" ∈ status.missing_categories) ↔
        ¬ ∃ name ∈ ["wit_list", "repo_search"], ∀ pat ∈ ["wit"],
          substr_occurs pat (str_lower name) = true) :=
  C7_category_validation demo_wit_settings (DiscoveryOutcome.tools ["wit_list", "repo_search"])
    "work_items" ["wit"] rfl (by decide) (by decide) (by decide)

/-! ## Claim C8 -/

/-- Claim C8 (code bug): session initialization is not idempotent-once — it
never populates any binding at all.  Every `initialize_agent_workflow` call
raises (first call: `AttributeError` constructing the agent factory; later
calls: `TypeError` from `factory.initialize` missing `tracer_provider`)
before the binding assignments at lines 181–211, leaving
`agent_runtime_config_map` untouched; yet each call, re-entry included, still
creates one more Foundry session thread first. -/
theorem C8_init_never_populates (st : OrchInitState) :
    (initialize_agent_workflow st).1.agent_runtime_config_map =
      st.agent_runtime_config_map ∧
    (∃ e, (initialize_agent_workflow st).2 = Except.error e) ∧
    (initialize_agent_workflow st).1.threads_created = st.threads_created + 1 ∧
    (initialize_agent_workflow (initialize_agent_workflow st).1).1.agent_runtime_config_map =
      st.agent_runtime_config_map ∧
    (∃ e, (initialize_agent_workflow (initialize_agent_workflow st).1).2 = Except.error e) ∧
    (initialize_agent_workflow (initialize_agent_workflow st).1).1.threads_created =
      st.threads_created + 2 := by
  rcases st with ⟨m, tc, tid, stored⟩
  cases stored
  · exact ⟨rfl, ⟨PyErr.attributeError, rfl⟩, rfl, rfl,
      ⟨PyErr.typeError "initialize() missing 1 required positional argument: tracer_provider",
        rfl⟩, rfl⟩
  · exact ⟨rfl,
      ⟨PyErr.typeError "initialize() missing 1 required positional argument: tracer_provider",
        rfl⟩, rfl, rfl,
      ⟨PyErr.typeError "initialize() missing 1 required positional argument: tracer_provider",
        rfl⟩, rfl⟩

/-! ## Claim C9 -/

/-- Claim C9: when tool discovery yields zero tools (including an absorbed
discovery failure), category validation is skipped entirely —
`missing_categories` is empty no matter which essential categories are
configured — `tools_available` is 0, and the empty-catalog warning is the
status's only warning; `create_plugin` still succeeds. -/
theorem C9_empty_catalog (settings : DevOpsMcpSettings) (discovery : DiscoveryOutcome)
    (hok : __validate_settings settings = .ok ())
    (hempty : __discover_tools discovery = []) :
    create_plugin settings discovery =
      .ok { tools_available := 0, missing_categories := [],
            warnings :=
              ["No tools discovered during initialization - they may load on first use"] } := by
  rw [create_plugin, hok, hempty]
  simp [__validate_tool_categories]

/-- Claim C9, witness at concrete inputs: valid settings with four essential
categories, discovery failing and absorbed. -/
theorem C9_witness :
    create_plugin demo_wit_settings DiscoveryOutcome.failure =
      .ok { tools_available := 0, missing_categories := [],
            warnings :=
              ["No tools discovered during initialization - they may load on first use"] } :=
  C9_empty_catalog demo_wit_settings DiscoveryOutcome.failure rfl rfl

end ReleaseManager
